import Mathlib

/-!
Verification of the login frontend of the SENAC aptitude-test repository.

The source under scrutiny is the `LoginForm` React component (controlled
form state: email, password, remember, isLoading; an async `handleSubmit`
that prevents default navigation, sets the loading flag, optionally awaits
an injected `onSubmit` callback with the collected credentials, and resets
the loading flag in a `finally` block) and the static `LoginPage`
composition.  We give a shallow embedding of the component state, the
submit handler (both as a sequential denotation and as a suspension-point
machine reflecting the single `await`), the rendered control attributes,
and an event-driven machine for the whole form, and prove the specified
properties about them.
-/

/-- The transient UI state held by the `LoginForm` component: the four
`useState` hooks `isLoading`, `email`, `password`, `remember`. -/
structure FormState where
  isLoading : Bool
  email : String
  password : String
  remember : Bool
deriving Repr, DecidableEq

/-- Initial hook values of a freshly mounted `LoginForm`:
`useState(false)`, `useState("")`, `useState("")`, `useState(false)`. -/
def initialState : FormState :=
  { isLoading := false, email := "", password := "", remember := false }

/-- The credentials record passed to the injected handler:
the object literal with fields email, password, remember. -/
structure Credentials where
  email : String
  password : String
  remember : Bool
deriving Repr, DecidableEq

/-- The part of the browser form event that `handleSubmit` touches:
`e.preventDefault()` sets `defaultPrevented`. -/
structure FormEvent where
  defaultPrevented : Bool
deriving Repr, DecidableEq

/-- The credentials collected from the current component state, as built
inside `handleSubmit`. -/
def currentCredentials (s : FormState) : Credentials :=
  { email := s.email, password := s.password, remember := s.remember }

/-- Everything observable about one complete run of `handleSubmit`:
the (mutated) form event, the list of handler invocations in order, the
outcome of the async function (`Except.error` models a propagated
rejection), and the component state when it completes. -/
structure SubmitResult (ε : Type) where
  event : FormEvent
  calls : List Credentials
  result : Except ε Unit
  finalState : FormState

/-- Sequential denotation of `handleSubmit`, translated line by line:
`e.preventDefault()`; `setIsLoading(true)`; then
`try { if (onSubmit) await onSubmit({email, password, remember}) }`
`finally { setIsLoading(false) }`.  There is no catch block, so the
handler outcome is returned unchanged as the function result. -/
def handleSubmit {ε : Type} (onSubmit : Option (Credentials → Except ε Unit))
    (e : FormEvent) (s : FormState) : SubmitResult ε :=
  let e1 : FormEvent := { e with defaultPrevented := true }
  let s1 : FormState := { s with isLoading := true }
  let c : Credentials := currentCredentials s
  match onSubmit with
  | some h =>
      { event := e1, calls := [c], result := h c,
        finalState := { s1 with isLoading := false } }
  | none =>
      { event := e1, calls := [], result := Except.ok (),
        finalState := { s1 with isLoading := false } }

/-- Status of the async `handleSubmit` at a suspension point: either
suspended at `await onSubmit(c)` with the call pending, or completed
with an outcome. -/
inductive SubmitStatus (ε : Type) where
  | awaiting (c : Credentials)
  | done (r : Except ε Unit)

/-- The synchronous prefix of `handleSubmit`, up to its only `await`:
prevent default, set loading, and either suspend on the handler call
(when a handler is supplied) or run the `finally` block and complete
(when none is). -/
def submitStart {ε : Type} (onSubmit : Option (Credentials → Except ε Unit))
    (s : FormState) : FormState × SubmitStatus ε :=
  let s1 : FormState := { s with isLoading := true }
  let c : Credentials := currentCredentials s
  match onSubmit with
  | some _ => (s1, SubmitStatus.awaiting c)
  | none => ({ s1 with isLoading := false }, SubmitStatus.done (Except.ok ()))

/-- The resumption of `handleSubmit` after the awaited handler call
settles: the `finally` block resets the loading flag, and the handler
outcome — fulfilled or rejected — becomes the outcome of `handleSubmit`
itself, untransformed. -/
def submitResume {ε : Type} (h : Credentials → Except ε Unit)
    (s : FormState) (c : Credentials) : FormState × Except ε Unit :=
  ({ s with isLoading := false }, h c)

/-- The attributes the component renders on its controls, from the JSX:
each input, the checkbox and the button carry the prop
`disabled = isLoading`, the inputs/checkbox display the corresponding
state, and the button text is chosen by the `isLoading` conditional. -/
structure Rendered where
  emailValue : String
  emailDisabled : Bool
  passwordValue : String
  passwordDisabled : Bool
  rememberChecked : Bool
  rememberDisabled : Bool
  buttonDisabled : Bool
  buttonText : String
deriving Repr, DecidableEq

/-- The render function of `LoginForm`, restricted to the control
attributes the spec talks about. -/
def render (s : FormState) : Rendered :=
  { emailValue := s.email,
    emailDisabled := s.isLoading,
    passwordValue := s.password,
    passwordDisabled := s.isLoading,
    rememberChecked := s.remember,
    rememberDisabled := s.isLoading,
    buttonDisabled := s.isLoading,
    buttonText := if s.isLoading then "Entrando..." else "Entrar" }

/-- The events the rendered form can receive: the three control change
handlers, a form submission, and the settling of the pending promise
returned by the injected handler. -/
inductive UIEvent where
  | emailInput (v : String)
  | passwordInput (v : String)
  | checkboxChange (checked : Bool)
  | submitForm
  | settle
deriving Repr, DecidableEq

/-- The full machine state: the component state, the multiset of handler
invocations not yet settled (kept as a list so that overlap would be
representable), the log of all handler invocations, and the outcomes of
completed submissions. -/
structure UIState (ε : Type) where
  form : FormState
  pending : List Credentials
  callLog : List Credentials
  results : List (Except ε Unit)

/-- Machine state of a freshly mounted form. -/
def initUI (ε : Type) : UIState ε :=
  { form := initialState, pending := [], callLog := [], results := [] }

/-- One event-loop step of the rendered form.  A disabled control fires
no event, and every control is rendered with `disabled = isLoading`, so
each user event is a no-op while loading.  A submission runs the
synchronous prefix of `handleSubmit`; a settle event runs its
resumption for the oldest pending call. -/
def uiStep {ε : Type} (onSubmit : Option (Credentials → Except ε Unit))
    (u : UIState ε) : UIEvent → UIState ε
  | UIEvent.emailInput v =>
      if u.form.isLoading then u
      else { u with form := { u.form with email := v } }
  | UIEvent.passwordInput v =>
      if u.form.isLoading then u
      else { u with form := { u.form with password := v } }
  | UIEvent.checkboxChange b =>
      if u.form.isLoading then u
      else { u with form := { u.form with remember := b } }
  | UIEvent.submitForm =>
      if u.form.isLoading then u
      else
        match submitStart onSubmit u.form with
        | (s1, SubmitStatus.awaiting c) =>
            { u with form := s1, pending := u.pending ++ [c],
                     callLog := u.callLog ++ [c] }
        | (s1, SubmitStatus.done r) =>
            { u with form := s1, results := u.results ++ [r] }
  | UIEvent.settle =>
      match u.pending, onSubmit with
      | c :: rest, some h =>
          let p := submitResume h u.form c
          { u with form := p.1, pending := rest, results := u.results ++ [p.2] }
      | _, _ => u

/-- Run the machine from the freshly mounted state over a list of
events. -/
def uiRun {ε : Type} (onSubmit : Option (Credentials → Except ε Unit))
    (evs : List UIEvent) : UIState ε :=
  evs.foldl (uiStep onSubmit) (initUI ε)

/-- The machine invariant: at most one handler call is unresolved, and
the loading flag is set exactly while one is. -/
def uiInv {ε : Type} (u : UIState ε) : Prop :=
  u.pending.length ≤ 1 ∧ (u.form.isLoading = true ↔ u.pending ≠ [])

theorem uiInv_init (ε : Type) : uiInv (initUI ε) := by
  constructor <;> simp [initUI, initialState, uiInv]

theorem uiStep_inv {ε : Type} (onSubmit : Option (Credentials → Except ε Unit))
    (u : UIState ε) (ev : UIEvent) (hu : uiInv u) : uiInv (uiStep onSubmit u ev) := by
  obtain ⟨h1, h2⟩ := hu
  cases ev with
  | emailInput v =>
      cases hl : u.form.isLoading <;>
        simp_all [uiStep, uiInv]
  | passwordInput v =>
      cases hl : u.form.isLoading <;>
        simp_all [uiStep, uiInv]
  | checkboxChange b =>
      cases hl : u.form.isLoading <;>
        simp_all [uiStep, uiInv]
  | submitForm =>
      cases hl : u.form.isLoading with
      | true => simp_all [uiStep, uiInv]
      | false =>
          have hp : u.pending = [] := by
            rw [hl] at h2
            simpa using h2
          cases onSubmit <;>
            simp [uiStep, uiInv, submitStart, hl, hp]
  | settle =>
      cases hpend : u.pending with
      | nil =>
          cases onSubmit <;> simp_all [uiStep, uiInv]
      | cons c rest =>
          have hrest : rest = [] := by
            rw [hpend] at h1
            simpa using h1
          cases onSubmit <;>
            simp_all [uiStep, uiInv, submitResume]

theorem uiFoldl_inv {ε : Type} (onSubmit : Option (Credentials → Except ε Unit))
    (evs : List UIEvent) (u : UIState ε) (hu : uiInv u) :
    uiInv (evs.foldl (uiStep onSubmit) u) := by
  induction evs generalizing u with
  | nil => exact hu
  | cons ev evs ih => exact ih _ (uiStep_inv onSubmit u ev hu)

theorem uiRun_inv {ε : Type} (onSubmit : Option (Credentials → Except ε Unit))
    (evs : List UIEvent) : uiInv (uiRun onSubmit evs) :=
  uiFoldl_inv onSubmit evs (initUI ε) (uiInv_init ε)

/-- The node tree of a rendered React element, with the count of event
handler props attached to each element. -/
inductive Node where
  | element (tag : String) (handlers : Nat) (children : List Node)
  | text (s : String)
deriving Repr

/-- The `LoginForm` component occurrence inside the page (its own
internals are a separate component; the page attaches nothing to it). -/
def loginFormNode : Node := Node.element "LoginForm" 0 []

/-- The element tree returned by `LoginPage`, translated from its JSX:
a centered wrapper holding a card (title "Login", description, the
`LoginForm`) and a legal-notice paragraph with two anchor links.  No
element carries an event handler prop. -/
def loginPageTree : Node :=
  Node.element "div" 0
    [Node.element "div" 0
      [Node.element "Card" 0
        [Node.element "CardHeader" 0
          [Node.element "CardTitle" 0 [Node.text "Login"],
           Node.element "CardDescription" 0
             [Node.text "Sistema de Aptidão SENAC"]],
         Node.element "CardContent" 0 [loginFormNode]],
       Node.element "p" 0
         [Node.text "Ao continuar, você concorda com nossos ",
          Node.element "a" 0 [Node.text "Termos de Serviço"],
          Node.text " e ",
          Node.element "a" 0 [Node.text "Política de Privacidade"],
          Node.text "."]]]

/-- `LoginPage` as a function of the render occasion: the component uses
no hooks and receives no props, so its denotation ignores the render
index. -/
def LoginPage (_renderIndex : Nat) : Node := loginPageTree

mutual

/-- Total number of event handler props in a node tree. -/
def handlerCount : Node → Nat
  | Node.text _ => 0
  | Node.element _ h cs => h + handlerCountList cs

/-- Total number of event handler props in a forest. -/
def handlerCountList : List Node → Nat
  | [] => 0
  | n :: ns => handlerCount n + handlerCountList ns

end

/-- The handler used in the end-to-end scenario of the spec: it fulfills
(after a delay, modelled by the settle event arriving later). -/
def scenarioHandler : Credentials → Except String Unit := fun _ => Except.ok ()

/-- The user events of the end-to-end scenario: type the email and the
password, check remember, submit. -/
def scenarioEvents : List UIEvent :=
  [UIEvent.emailInput "a@b.com", UIEvent.passwordInput "secret",
   UIEvent.checkboxChange true, UIEvent.submitForm]

/-- Claim C1: whenever an onSubmit handler is supplied, one submission
runs the injected handler exactly once, with argument equal to the
component's current email, password and remember values. -/
theorem submit_calls_handler_once {ε : Type}
    (h : Credentials → Except ε Unit) (e : FormEvent) (s : FormState) :
    (handleSubmit (some h) e s).calls =
      [{ email := s.email, password := s.password, remember := s.remember }] :=
  rfl

/-- Claim C2: at every observable point of the running form the loading
flag is set exactly while a submission's handler call is unresolved, and
the resumption of handleSubmit resets it to false whatever the handler's
outcome, fulfilled or rejected. -/
theorem loading_true_iff_pending :
    (∀ (ε : Type) (onSubmit : Option (Credentials → Except ε Unit))
        (evs : List UIEvent),
        ((uiRun onSubmit evs).form.isLoading = true ↔
          (uiRun onSubmit evs).pending ≠ [])) ∧
    (∀ (ε : Type) (h : Credentials → Except ε Unit) (s : FormState)
        (c : Credentials), (submitResume h s c).1.isLoading = false) :=
  ⟨fun _ onSubmit evs => (uiRun_inv onSubmit evs).2, fun _ _ _ _ => rfl⟩

/-- Claim C3: when the injected handler rejects, handleSubmit completes
with that same rejection, untransformed, and the loading flag is already
false at completion. -/
theorem rejection_propagates {ε : Type}
    (h : Credentials → Except ε Unit) (e : FormEvent) (s : FormState) (err : ε)
    (hrej : h { email := s.email, password := s.password, remember := s.remember }
      = Except.error err) :
    (handleSubmit (some h) e s).result = Except.error err ∧
    (handleSubmit (some h) e s).finalState.isLoading = false := by
  constructor
  · simpa [handleSubmit, currentCredentials] using hrej
  · rfl

/-- Witness for claim C3 at a concrete handler that rejects with the
string "invalid" from the initial state. -/
theorem rejection_propagates_witness :
    (handleSubmit (some (fun _ => Except.error "invalid"))
        { defaultPrevented := false } initialState).result =
      Except.error "invalid" ∧
    (handleSubmit (some (fun _ => Except.error "invalid"))
        { defaultPrevented := false } initialState).finalState.isLoading = false :=
  rejection_propagates (fun _ => Except.error "invalid")
    { defaultPrevented := false } initialState "invalid" rfl

/-- Claim C4: in every rendered state, the email input, the password
input, the remember checkbox and the submit button are disabled exactly
when the loading flag is true. -/
theorem disabled_iff_loading (s : FormState) :
    ((render s).emailDisabled = true ↔ s.isLoading = true) ∧
    ((render s).passwordDisabled = true ↔ s.isLoading = true) ∧
    ((render s).rememberDisabled = true ↔ s.isLoading = true) ∧
    ((render s).buttonDisabled = true ↔ s.isLoading = true) := by
  simp [render]

/-- Claim C5: with no handler supplied, a submission prevents the
default navigation, completes without a rejection, and leaves the
loading flag false. -/
theorem no_handler_submit_ok (ε : Type) (e : FormEvent) (s : FormState) :
    (@handleSubmit ε none e s).event.defaultPrevented = true ∧
    (@handleSubmit ε none e s).result = Except.ok () ∧
    (@handleSubmit ε none e s).finalState.isLoading = false :=
  ⟨rfl, rfl, rfl⟩

/-- Claim C6: in every state the form can reach, at most one invocation
of the injected handler is unresolved: the loading flag disables the
form while one is pending, so overlapping handler invocations never
occur. -/
theorem at_most_one_pending {ε : Type}
    (onSubmit : Option (Credentials → Except ε Unit)) (evs : List UIEvent) :
    (uiRun onSubmit evs).pending.length ≤ 1 :=
  (uiRun_inv onSubmit evs).1

/-- Claim C7: a remember-checkbox change event leaves the email and
password fields (and the loading flag) unchanged, and sets the remember
field to the new checked value whenever the checkbox is enabled. -/
theorem checkbox_changes_only_remember {ε : Type}
    (onSubmit : Option (Credentials → Except ε Unit)) (u : UIState ε) (b : Bool) :
    (uiStep onSubmit u (UIEvent.checkboxChange b)).form.email = u.form.email ∧
    (uiStep onSubmit u (UIEvent.checkboxChange b)).form.password = u.form.password ∧
    (uiStep onSubmit u (UIEvent.checkboxChange b)).form.isLoading = u.form.isLoading ∧
    (uiStep onSubmit u (UIEvent.checkboxChange b)).form.remember =
      (if u.form.isLoading then u.form.remember else b) := by
  cases hl : u.form.isLoading <;> simp [uiStep, hl]

/-- Claim C8: in the scenario where the user enters email a@b.com and
password secret, checks remember, and submits with a handler that
fulfills after a delay, the button text reads "Entrar" before the
submission, "Entrando..." exactly while the handler is pending, and
"Entrar" again after it settles; the handler is invoked once with
exactly those credentials. -/
theorem scenario_button_text_and_call :
    (render (uiRun (some scenarioHandler) (scenarioEvents.take 3)).form).buttonText
      = "Entrar" ∧
    (render (uiRun (some scenarioHandler) scenarioEvents).form).buttonText
      = "Entrando..." ∧
    (uiRun (some scenarioHandler) scenarioEvents).pending ≠ [] ∧
    (uiRun (some scenarioHandler) scenarioEvents).callLog =
      [{ email := "a@b.com", password := "secret", remember := true }] ∧
    (render (uiStep (some scenarioHandler)
        (uiRun (some scenarioHandler) scenarioEvents) UIEvent.settle).form).buttonText
      = "Entrar" ∧
    (uiStep (some scenarioHandler)
        (uiRun (some scenarioHandler) scenarioEvents) UIEvent.settle).pending = [] := by
  refine ⟨rfl, rfl, ?_, rfl, rfl, rfl⟩
  simp [uiRun, uiStep, scenarioEvents, scenarioHandler, initUI, initialState,
    submitStart, currentCredentials]

/-- Claim C9: LoginPage is a static, stateless composition: its
denotation does not depend on the render occasion, so every pair of
renders yields the same element tree, and that tree attaches no event
handler props of its own. -/
theorem login_page_static :
    (∀ i j : Nat, LoginPage i = LoginPage j) ∧
    handlerCount loginPageTree = 0 :=
  ⟨fun _ _ => rfl, rfl⟩

/-- Claim C10: a freshly mounted form has empty email and password,
remember false and loading false, so an immediate submission with a
supplied handler passes it the all-empty credentials record. -/
theorem initial_state_and_immediate_submit {ε : Type}
    (h : Credentials → Except ε Unit) (e : FormEvent) :
    initialState.email = "" ∧ initialState.password = "" ∧
    initialState.remember = false ∧ initialState.isLoading = false ∧
    (handleSubmit (some h) e initialState).calls =
      [{ email := "", password := "", remember := false }] :=
  ⟨rfl, rfl, rfl, rfl, rfl⟩
